import Mathlib

/-!
Verification development for the muser backend (src/main.py).

The Python source is shallowly embedded: timestamps are epoch seconds
(`Nat`), the SQLite database is an explicit `DB` record of lists, the
Flask/SocketIO handlers `get_rooms`, `join` and `message_created` are
pure functions from a database, clock and request data to a result and
an updated database.  Unhandled Python exceptions (AttributeError on
`None`, IndexError on a list) are modelled as `err` outcomes; on such
outcomes no mutation is committed, matching Flask-SQLAlchemy's
commit-on-teardown behaviour which skips the commit when the request
raises.
-/

namespace Muser

/-- Start of the next calendar day, in epoch seconds: the embedding of
`datetime.datetime.combine(datetime.datetime.today(), datetime.time.min)
+ datetime.timedelta(days=1)` with days of 86400 seconds. -/
def startOfNextDay (now : Nat) : Nat := (now / 86400 + 1) * 86400

/-- An artist entry of the provider's top-artists response: `id`, `name`,
`images` and `genres` fields of each element of `items`. -/
structure Artist where
  id : String
  name : String
  images : List String
  genres : List String
deriving DecidableEq, Repr

/-- The provider's top-artists response: the `total` field and the
`items` list. -/
structure TopArtistsData where
  total : Nat
  items : List Artist
deriving DecidableEq, Repr

/-- The `User` model row: identity fields, provider credentials and the
four room-assignment slots with their expiry. -/
structure User where
  id : String
  display_name : String
  profile_picture : Option String
  spotify_link : String
  refresh_token : String
  access_token : String
  access_token_expiry : Nat
  artist_room_1 : Option String
  artist_room_2 : Option String
  genre_room_1 : Option String
  genre_room_2 : Option String
  rooms_expiry : Option Nat
deriving DecidableEq, Repr

/-- The `Token` model row: bearer token value, expiry and owning user. -/
structure Token where
  token : String
  expiry : Nat
  user_id : String
deriving DecidableEq, Repr

/-- The `Room` model row.  `images` models the JSON-text column as the
decoded list (`json.dumps`/`json.loads` round-trip), `none` standing for
the NULL column of rooms created without images. -/
structure Room where
  id : String
  images : Option (List String)
  name : String
  room_type : String
deriving DecidableEq, Repr

/-- The `Message` model row. -/
structure Message where
  id : Nat
  body : String
  timestamp : Nat
  user_id : String
  room_id : String
deriving DecidableEq, Repr

/-- The database: the four tables as lists in insertion order. -/
structure DB where
  users : List User
  tokens : List Token
  rooms : List Room
  messages : List Message
deriving DecidableEq, Repr

/-- `Token.query.get(t)`. -/
def findToken (db : DB) (t : String) : Option Token :=
  db.tokens.find? (fun tk => tk.token == t)

/-- `User.query.get(i)`, also the `token.user` / `message.user`
relationship lookup. -/
def findUser (db : DB) (i : String) : Option User :=
  db.users.find? (fun u => u.id == i)

/-- `Room.query.get(i)` / `Room.query.filter_by(id=i).first()`. -/
def findRoom (db : DB) (i : String) : Option Room :=
  db.rooms.find? (fun r => r.id == i)

/-- The `room.messages` relationship: messages of a room in insertion
order. -/
def history (db : DB) (roomId : String) : List Message :=
  db.messages.filter (fun m => m.room_id == roomId)

/-- Committing a mutation of a fetched `User` ORM object: every row with
the same primary key is replaced. -/
def replaceUser (db : DB) (u : User) : DB :=
  { db with users := db.users.map (fun x => if x.id == u.id then u else x) }

/-- The `user` sub-object of `Message.marshal`. -/
structure MarshalUser where
  id : String
  display_name : String
  profile_picture : Option String
  spotify_link : String
deriving DecidableEq, Repr

/-- The dictionary produced by `Message.marshal`:
`{id, body, timestamp, room_id, user}`. -/
structure Marshaled where
  id : Nat
  body : String
  timestamp : Nat
  room_id : String
  user : MarshalUser
deriving DecidableEq, Repr

/-- `Message.marshal` with the related user object in hand. -/
def Message.marshal (m : Message) (u : User) : Marshaled :=
  { id := m.id, body := m.body, timestamp := m.timestamp, room_id := m.room_id,
    user := { id := u.id, display_name := u.display_name,
              profile_picture := u.profile_picture,
              spotify_link := u.spotify_link } }

/-- `message.marshal()` resolving `self.user` through the database;
`none` models the AttributeError raised when the related user row is
missing. -/
def marshalIn (db : DB) (m : Message) : Option Marshaled :=
  (findUser db m.user_id).map (fun u => m.marshal u)

/-- `[message.marshal() for message in room.messages]`; an unresolvable
user raises. -/
def marshalHistory (db : DB) (roomId : String) : Except String (List Marshaled) :=
  (history db roomId).mapM (fun m =>
    match marshalIn db m with
    | some x => Except.ok x
    | none => Except.error "AttributeError")

/-- One step of `genres[genre] += 1` on a `defaultdict(int)`, which
keeps keys in first-insertion order. -/
def bump : List (String × Nat) → String → List (String × Nat)
  | [], g => [(g, 1)]
  | (k, v) :: rest, g =>
      if k = g then (k, v + 1) :: rest else (k, v) :: bump rest g

/-- The genre frequency table built by the nested loop over
`top_artists_data["items"]` and each artist's `genres`, in first-seen
key order. -/
def countGenres (items : List Artist) : List (String × Nat) :=
  items.foldl (fun acc a => a.genres.foldl bump acc) []

/-- Stable insertion of one element into a descending-by-count list:
the element passes over entries with a strictly larger count and lands
in front of the first entry whose count is not larger. -/
def insertDesc (x : String × Nat) : List (String × Nat) → List (String × Nat)
  | [] => [x]
  | y :: ys => if y.2 ≤ x.2 then x :: y :: ys else y :: insertDesc x ys

/-- Stable sort by descending count: the embedding of
`sorted(genres.items(), key=lambda item: item[1], reverse=True)`
(CPython's sort is stable, so ties keep first-seen order). -/
def sortDesc : List (String × Nat) → List (String × Nat)
  | [] => []
  | x :: xs => insertDesc x (sortDesc xs)

/-- `genres_sorted` of the source. -/
def genresSorted (items : List Artist) : List (String × Nat) :=
  sortDesc (countGenres items)

/-- A room dictionary appended to the local `rooms` list on the
recomputation path, before the creation loop. -/
structure RoomDict where
  type : String
  name : String
  id : String
  images : Option (List String)
deriving DecidableEq, Repr

/-- A room dictionary of the HTTP response, with its message history. -/
structure RoomData where
  type : String
  name : String
  id : String
  images : Option (List String)
  messages : List Marshaled
deriving DecidableEq, Repr

/-- Result of `GET /api/v1/rooms`. -/
inductive HttpResult where
  | forbidden
  | notEnoughData
  | ok (rooms : List RoomData) (expiry : Nat)
  | err (e : String)
deriving DecidableEq, Repr

/-- The idempotent creation step of the loop: add the Room row only if
no row with `room["id"]` exists — with the provider images and
`room_type="artist"` in the artist branch, and with `id=room["name"]`
and again `room_type="artist"` in the genre branch. -/
def ensureRoom (db : DB) (rd : RoomDict) : DB :=
  if (findRoom db rd.id).isNone then
    if rd.type == "artist" then
      { db with rooms := db.rooms ++
          [{ id := rd.id, images := rd.images, name := rd.name,
             room_type := "artist" }] }
    else
      { db with rooms := db.rooms ++
          [{ id := rd.name, images := none, name := rd.name,
             room_type := "artist" }] }
  else db

/-- One iteration of the creation loop (`for room in rooms:`): ensure
the Room row exists, then fetch it (raising on a failed fetch) and
marshal its history into the dictionary. -/
def processRoom (db : DB) (rd : RoomDict) : Except String (DB × RoomData) :=
  let db1 := ensureRoom db rd
  match findRoom db1 rd.id with
  | none => Except.error "AttributeError"
  | some r =>
    match marshalHistory db1 r.id with
    | Except.error e => Except.error e
    | Except.ok msgs =>
      Except.ok (db1, { type := rd.type, name := rd.name, id := rd.id,
                        images := rd.images, messages := msgs })

/-- The creation loop over the four room dictionaries. -/
def processRooms (db : DB) : List RoomDict → Except String (DB × List RoomData)
  | [] => Except.ok (db, [])
  | rd :: rest =>
    match processRoom db rd with
    | Except.error e => Except.error e
    | Except.ok (db1, r) =>
      match processRooms db1 rest with
      | Except.error e => Except.error e
      | Except.ok (db2, rs) => Except.ok (db2, r :: rs)

/-- The access-token refresh at the start of the recomputation branch:
when `user.access_token_expiry < now`, the provider's refresh response
(`refreshResp` = new token and `expires_in`) is written onto the user. -/
def refreshUser (user0 : User) (now : Nat) (refreshResp : String × Nat) : User :=
  if user0.access_token_expiry < now then
    { user0 with access_token := refreshResp.1,
                 access_token_expiry := now + refreshResp.2 }
  else user0

/-- The four room dictionaries appended to the local `rooms` list on the
recomputation path, in source order. -/
def roomDicts (a0 a1 : Artist) (g0 g1 : String × Nat) : List RoomDict :=
  [ { type := "artist", name := a0.name, id := a0.id,
      images := some a0.images },
    { type := "artist", name := a1.name, id := a1.id,
      images := some a1.images },
    { type := "genre", name := g0.1, id := g0.1, images := none },
    { type := "genre", name := g1.1, id := g1.1, images := none } ]

/-- The assignments written onto the user on the recomputation path:
the two top artist identifiers, the two top genre tags, and
`rooms_expiry` set to the next midnight. -/
def assignedUser (u : User) (a0 a1 : Artist) (g0 g1 : String × Nat)
    (now : Nat) : User :=
  { u with
    artist_room_1 := some a0.id, artist_room_2 := some a1.id,
    genre_room_1 := some g0.1, genre_room_2 := some g1.1,
    rooms_expiry := some (startOfNextDay now) }

/-- The cache-miss (recomputation) branch of `get_rooms`: refresh the
provider access token if expired, give up with 204 when `total < 2`,
assign the two artist rooms from `items[0]`/`items[1]` and the two genre
rooms from the sorted genre table, set `rooms_expiry` to the next
midnight, run the creation loop and commit.  Out-of-range accesses to
`items` or `genres_sorted` raise IndexError; a raising request commits
nothing. -/
def getRoomsMiss (db : DB) (user0 : User) (now : Nat)
    (refreshResp : String × Nat) (top : TopArtistsData) : HttpResult × DB :=
  let user1 := refreshUser user0 now refreshResp
  if top.total < 2 then (HttpResult.notEnoughData, replaceUser db user1)
  else
    match top.items with
    | a0 :: a1 :: _ =>
      match genresSorted top.items with
      | g0 :: g1 :: _ =>
        let user2 := assignedUser user1 a0 a1 g0 g1 now
        match processRooms (replaceUser db user2) (roomDicts a0 a1 g0 g1) with
        | Except.error e => (HttpResult.err e, db)
        | Except.ok (db2, rooms) =>
          (HttpResult.ok rooms (startOfNextDay now), db2)
      | _ => (HttpResult.err "IndexError", db)
    | _ => (HttpResult.err "IndexError", db)

/-- The cache-hit branch of `get_rooms` for one stored room identifier:
`Room.query.filter_by(id=room_id).first()` followed by attribute reads,
which raise on a missing row (or a NULL identifier); the stored images
column is included when decodable, and the history is marshaled. -/
def roomDataOfHit (db : DB) (roomId : Option String) : Except String RoomData :=
  match roomId.bind (findRoom db) with
  | none => Except.error "AttributeError"
  | some r =>
    match marshalHistory db r.id with
    | Except.error e => Except.error e
    | Except.ok msgs =>
      Except.ok { type := r.room_type, name := r.name, id := r.id,
                  images := r.images, messages := msgs }

/-- The cache-hit branch of `get_rooms`: read the four stored room
identifiers back joined with Room metadata and history, in slot order,
stopping at the first raising lookup; no mutation. -/
def getRoomsHit (db : DB) (user : User) (expiry : Nat) : HttpResult × DB :=
  match roomDataOfHit db user.artist_room_1 with
  | Except.error e => (HttpResult.err e, db)
  | Except.ok r1 =>
    match roomDataOfHit db user.artist_room_2 with
    | Except.error e => (HttpResult.err e, db)
    | Except.ok r2 =>
      match roomDataOfHit db user.genre_room_1 with
      | Except.error e => (HttpResult.err e, db)
      | Except.ok r3 =>
        match roomDataOfHit db user.genre_room_2 with
        | Except.error e => (HttpResult.err e, db)
        | Except.ok r4 => (HttpResult.ok [r1, r2, r3, r4] expiry, db)

/-- `GET /api/v1/rooms`: 403 when the Authorization token is unknown or
`token.expiry < now`; then the cache-miss branch when `rooms_expiry` is
NULL or past, the cache-hit branch otherwise.  `refreshResp` is the
provider's token-refresh response and `top` its top-artists response. -/
def get_rooms (db : DB) (auth : String) (now : Nat)
    (refreshResp : String × Nat) (top : TopArtistsData) : HttpResult × DB :=
  match findToken db auth with
  | none => (HttpResult.forbidden, db)
  | some tk =>
    if tk.expiry < now then (HttpResult.forbidden, db)
    else
      match findUser db tk.user_id with
      | none => (HttpResult.err "AttributeError", db)
      | some user =>
        match user.rooms_expiry with
        | none => getRoomsMiss db user now refreshResp top
        | some e =>
          if e < now then getRoomsMiss db user now refreshResp top
          else getRoomsHit db user e

/-- Result of the realtime `join` event. -/
inductive JoinResult where
  | refused (reason : String)
  | joined (sessionToken : String) (rooms : List (Option String))
  | err (e : String)
deriving DecidableEq, Repr

/-- The `join` handler: refuse the connection for an unknown or expired
token, otherwise store the token on the session and subscribe the
connection to the four stored room identifiers. -/
def join (db : DB) (token_id : String) (now : Nat) : JoinResult :=
  match findToken db token_id with
  | none => JoinResult.refused "authentication failed"
  | some tk =>
    if tk.expiry < now then JoinResult.refused "authentication failed"
    else
      match findUser db tk.user_id with
      | none => JoinResult.err "AttributeError"
      | some u =>
        JoinResult.joined token_id
          [u.artist_room_1, u.artist_room_2, u.genre_room_1, u.genre_room_2]

/-- Acknowledgement of the `new message` event, or an unhandled
exception. -/
inductive MsgResult where
  | ack (text : String) (code : Nat)
  | err (e : String)
deriving DecidableEq, Repr

/-- The `new message` handler.  It reads `session.token` (AttributeError
when no join ever stored one) and takes `Token.query.get(...).user` with
no expiry check; a missing token row raises on the `.user` access.  It
then acknowledges 403 without any write when the target room is not one
of the caller's four stored identifiers, and otherwise persists the
message and broadcasts its marshaling.  `nextId` is the autoincrement
key and `now` the default timestamp; a missing Room row makes the
NOT-NULL `room_id` commit fail. -/
def message_created (db : DB) (sessionToken : Option String) (room : String)
    (body : String) (now : Nat) (nextId : Nat) :
    MsgResult × DB × Option Marshaled :=
  match sessionToken with
  | none => (MsgResult.err "AttributeError", db, none)
  | some st =>
    match findToken db st with
    | none => (MsgResult.err "AttributeError", db, none)
    | some tk =>
      match findUser db tk.user_id with
      | none => (MsgResult.err "AttributeError", db, none)
      | some u =>
        if [u.artist_room_1, u.artist_room_2,
            u.genre_room_1, u.genre_room_2].contains (some room) then
          match findRoom db room with
          | none => (MsgResult.err "IntegrityError", db, none)
          | some _ =>
            let m : Message := { id := nextId, body := body, timestamp := now,
                                 user_id := u.id, room_id := room }
            (MsgResult.ack "Message sent" 201,
             { db with messages := db.messages ++ [m] },
             some (m.marshal u))
        else
          (MsgResult.ack "User does not have access to room" 403, db, none)

/-! Sample data used by concrete theorems and witnesses. -/

/-- A user with no room assignments yet. -/
def uA : User :=
  { id := "u1", display_name := "Alice", profile_picture := some "pic",
    spotify_link := "lnk", refresh_token := "r", access_token := "a",
    access_token_expiry := 1000000, artist_room_1 := none,
    artist_room_2 := none, genre_room_1 := none, genre_room_2 := none,
    rooms_expiry := none }

/-- A token for `uA`, expiring at 500000. -/
def tokA : Token := { token := "t1", expiry := 500000, user_id := "u1" }

/-- A database holding `uA` and `tokA` and nothing else. -/
def dbA : DB := { users := [uA], tokens := [tokA], rooms := [], messages := [] }

/-- The scenario's artist A, id `a1`, contributing genres rock and pop. -/
def artistA : Artist :=
  { id := "a1", name := "A", images := ["imA"], genres := ["rock", "pop"] }

/-- The scenario's artist B, id `a2`, contributing rock twice. -/
def artistB : Artist :=
  { id := "a2", name := "B", images := ["imB"], genres := ["rock", "rock"] }

/-- A provider response with the two scenario artists, so genre totals
are rock: 3, pop: 1 with rock seen first. -/
def topAB : TopArtistsData := { total := 2, items := [artistA, artistB] }

/-- The user `uA` after a recomputation has stored its assignments. -/
def uB : User :=
  { uA with artist_room_1 := some "a1", artist_room_2 := some "a2",
            genre_room_1 := some "rock", genre_room_2 := some "pop",
            rooms_expiry := some 86400 }

/-- The Room row for artist `a1`. -/
def roomA1 : Room :=
  { id := "a1", images := some ["imA"], name := "A", room_type := "artist" }

/-- A database where `uB` has assignments and the room `a1` exists. -/
def dbB : DB :=
  { users := [uB], tokens := [tokA], rooms := [roomA1], messages := [] }

/-- A provider response reporting a single artist. -/
def topOne : TopArtistsData := { total := 1, items := [artistA] }

/-- Two artists sharing one single genre tag. -/
def artistC : Artist :=
  { id := "c1", name := "C", images := [], genres := ["solo"] }

/-- Second artist with the same single genre tag. -/
def artistD : Artist :=
  { id := "c2", name := "D", images := [], genres := ["solo"] }

/-- A provider response whose artists carry only one distinct genre. -/
def topSolo : TopArtistsData := { total := 2, items := [artistC, artistD] }

/-- The `type` fields of a successful rooms response. -/
def resultTypes : HttpResult → Option (List String)
  | HttpResult.ok rooms _ => some (rooms.map RoomData.type)
  | _ => none

/-- The `id` fields of a successful rooms response. -/
def resultIds : HttpResult → Option (List String)
  | HttpResult.ok rooms _ => some (rooms.map RoomData.id)
  | _ => none

/-- The four room-assignment slots stored on a user row. -/
def roomSlots (db : DB) (i : String) :
    Option (Option String × Option String × Option String × Option String) :=
  (findUser db i).map (fun u =>
    (u.artist_room_1, u.artist_room_2, u.genre_room_1, u.genre_room_2))

/-! Theorems for the claims. -/

/-- C10: a `new message` event on a connection whose session never had a
successful join (no stored token identifier) raises an unhandled
AttributeError when reading the absent session token: the result is not
the 403 acknowledgement, and the database — in particular the message
log — is unchanged. -/
theorem c10_missing_session_token (db : DB) (room body : String)
    (now nextId : Nat) :
    message_created db none room body now nextId
      = (MsgResult.err "AttributeError", db, none) := rfl

/-- C2: for an authenticated connection, posting to a room identifier
that is not one of the caller's four stored room assignments is
acknowledged with the Forbidden 403 result and the database — hence
every room's message history — is unchanged. -/
theorem c2_forbidden_no_append (db : DB) (st room body : String)
    (now nextId : Nat) (tk : Token) (u : User)
    (htk : findToken db st = some tk)
    (hu : findUser db tk.user_id = some u)
    (hmem : ¬ ([u.artist_room_1, u.artist_room_2, u.genre_room_1,
                u.genre_room_2].contains (some room) = true)) :
    message_created db (some st) room body now nextId
      = (MsgResult.ack "User does not have access to room" 403, db, none) := by
  simp only [message_created, htk, hu]
  rw [if_neg hmem]

/-- Witness for C2 at a concrete database: `uB` is not assigned room
`nowhere`, so the post is acknowledged 403 and nothing is written. -/
theorem c2_witness :
    message_created dbB (some "t1") "nowhere" "hi" 7 1
      = (MsgResult.ack "User does not have access to room" 403, dbB, none) :=
  c2_forbidden_no_append dbB "t1" "nowhere" "hi" 7 1 tokA uB rfl rfl
    (by decide)

/-- C4: the recomputation creates the genre-slot Room rows with
`room_type = "artist"`, not `"genre"` — at the scenario input, the row
for genre `rock` is stored with `room_type = "artist"`, the same tag as
the artist-slot row `a1`. -/
theorem c4_genre_room_typed_artist :
    (findRoom (get_rooms dbA "t1" 10 ("na", 100) topAB).2 "rock").map
        Room.room_type = some "artist"
    ∧ (findRoom (get_rooms dbA "t1" 10 ("na", 100) topAB).2 "a1").map
        Room.room_type = some "artist" := ⟨rfl, rfl⟩

/-- C3: at the scenario database the recomputation (cache-miss) response
types the four rooms `artist, artist, genre, genre`, while the same-day
cache-hit response for the unchanged stored state types them
`artist, artist, artist, artist` — same room identifiers, different
`type` fields, so the two paths disagree on the genre slots. -/
theorem c3_cache_paths_diverge :
    resultTypes (get_rooms dbA "t1" 10 ("na", 100) topAB).1
        = some ["artist", "artist", "genre", "genre"]
    ∧ resultTypes (get_rooms (get_rooms dbA "t1" 10 ("na", 100) topAB).2
          "t1" 20 ("na", 100) topAB).1
        = some ["artist", "artist", "artist", "artist"]
    ∧ resultIds (get_rooms dbA "t1" 10 ("na", 100) topAB).1
        = resultIds (get_rooms (get_rooms dbA "t1" 10 ("na", 100) topAB).2
          "t1" 20 ("na", 100) topAB).1 := ⟨rfl, rfl, rfl⟩

/-! Structural lemmas on the stable descending sort. -/

theorem insertDesc_perm (x : String × Nat) (l : List (String × Nat)) :
    List.Perm (insertDesc x l) (x :: l) := by
  induction l with
  | nil => simp [insertDesc]
  | cons y ys ih =>
    by_cases h : y.2 ≤ x.2
    · simp [insertDesc, h]
    · simp only [insertDesc, if_neg h]
      exact (ih.cons y).trans (List.Perm.swap x y ys)

theorem sortDesc_perm (l : List (String × Nat)) : List.Perm (sortDesc l) l := by
  induction l with
  | nil => simp [sortDesc]
  | cons x xs ih => exact ((insertDesc_perm x (sortDesc xs)).trans (ih.cons x))

theorem insertDesc_sorted (x : String × Nat) (l : List (String × Nat))
    (h : l.Pairwise (fun a b => b.2 ≤ a.2)) :
    (insertDesc x l).Pairwise (fun a b => b.2 ≤ a.2) := by
  induction l with
  | nil => simp [insertDesc]
  | cons y ys ih =>
    rcases List.pairwise_cons.mp h with ⟨hy, hys⟩
    by_cases hle : y.2 ≤ x.2
    · simp only [insertDesc, if_pos hle]
      refine List.pairwise_cons.mpr ⟨?_, h⟩
      intro b hb
      rcases List.mem_cons.mp hb with hb | hb
      · exact hb ▸ hle
      · exact (hy b hb).trans hle
    · simp only [insertDesc, if_neg hle]
      refine List.pairwise_cons.mpr ⟨?_, ih hys⟩
      intro b hb
      rcases List.mem_cons.mp ((insertDesc_perm x ys).mem_iff.mp hb) with hb | hb
      · exact hb ▸ le_of_not_le hle
      · exact hy b hb

theorem sortDesc_sorted (l : List (String × Nat)) :
    (sortDesc l).Pairwise (fun a b => b.2 ≤ a.2) := by
  induction l with
  | nil => simp [sortDesc]
  | cons x xs ih => exact insertDesc_sorted x _ ih

theorem sublist_insertDesc (x : String × Nat) (l : List (String × Nat)) :
    List.Sublist l (insertDesc x l) := by
  induction l with
  | nil => simp [insertDesc]
  | cons y ys ih =>
    by_cases hle : y.2 ≤ x.2
    · simp only [insertDesc, if_pos hle]
      exact List.sublist_cons_self x (y :: ys)
    · simp only [insertDesc, if_neg hle]
      exact ih.cons₂ y

theorem pair_sublist_insertDesc {x b : String × Nat} {l : List (String × Nat)}
    (hb : List.Sublist [b] l) (hle : b.2 ≤ x.2) :
    List.Sublist [x, b] (insertDesc x l) := by
  induction l with
  | nil => exact absurd (List.sublist_nil.mp hb) (by simp)
  | cons y ys ih =>
    by_cases hy : y.2 ≤ x.2
    · simp only [insertDesc, if_pos hy]
      exact hb.cons₂ x
    · simp only [insertDesc, if_neg hy]
      cases hb with
      | cons _ h => exact (ih h).cons y
      | cons₂ _ h => exact absurd hle hy

theorem pair_sublist_sortDesc {a b : String × Nat} {l : List (String × Nat)}
    (h : List.Sublist [a, b] l) (hle : b.2 ≤ a.2) :
    List.Sublist [a, b] (sortDesc l) := by
  induction l with
  | nil => exact absurd (List.sublist_nil.mp h) (by simp)
  | cons x xs ih =>
    cases h with
    | cons _ h => exact (ih h).trans (sublist_insertDesc x (sortDesc xs))
    | cons₂ _ h =>
      have hbmem : b ∈ sortDesc xs :=
        (sortDesc_perm xs).mem_iff.mpr (List.singleton_sublist.mp h)
      exact pair_sublist_insertDesc (List.singleton_sublist.mpr hbmem) hle

/-- C5: the genre ranking is the deterministic stable descending sort of
the first-seen-ordered frequency table: the sorted list is a permutation
of the table, its counts are non-increasing, any pair already in
non-increasing count order in the table — in particular any tie — keeps
its first-seen order, the head's count bounds every genre's count, and
at the scenario input (artists `a1`, `a2` with genre totals rock 3,
pop 1) the stored assignments become
`(a1, a2, rock, pop)`. -/
theorem c5_genre_ranking (items : List Artist) :
    List.Perm (genresSorted items) (countGenres items)
    ∧ (genresSorted items).Pairwise (fun a b => b.2 ≤ a.2)
    ∧ (∀ a b, List.Sublist [a, b] (countGenres items) → b.2 ≤ a.2 →
        List.Sublist [a, b] (genresSorted items))
    ∧ (∀ hd, (genresSorted items).head? = some hd →
        ∀ p ∈ countGenres items, p.2 ≤ hd.2)
    ∧ roomSlots (get_rooms dbA "t1" 10 ("na", 100) topAB).2 "u1"
        = some (some "a1", some "a2", some "rock", some "pop") := by
  refine ⟨sortDesc_perm _, sortDesc_sorted _,
    fun a b h hle => pair_sublist_sortDesc h hle, ?_, rfl⟩
  intro hd hhd p hp
  have hmem : p ∈ genresSorted items := (sortDesc_perm _).mem_iff.mpr hp
  rcases hcons : genresSorted items with _ | ⟨h0, tl⟩
  · rw [hcons] at hmem; simp at hmem
  · rw [hcons] at hhd hmem
    have h0eq : h0 = hd := by simpa using hhd
    subst h0eq
    rcases List.mem_cons.mp hmem with hb | hb
    · exact hb ▸ le_refl _
    · have := sortDesc_sorted (countGenres items)
      rw [show sortDesc (countGenres items) = genresSorted items from rfl,
        hcons] at this
      exact (List.pairwise_cons.mp this).1 p hb

/-- Witness for C5: at the scenario input the tied-or-ordered pair
(rock, 3), (pop, 1) of the frequency table keeps its order in the
sorted output, and the head bound applies to pop. -/
theorem c5_witness :
    List.Sublist [("rock", 3), ("pop", 1)]
      (genresSorted [artistA, artistB])
    ∧ (("pop", 1) : String × Nat).2 ≤ (("rock", 3) : String × Nat).2 :=
  ⟨(c5_genre_ranking [artistA, artistB]).2.2.1 ("rock", 3) ("pop", 1)
      (List.Sublist.refl _) (by decide),
   (c5_genre_ranking [artistA, artistB]).2.2.2.1 ("rock", 3) rfl ("pop", 1)
      (by decide)⟩

/-! Lookup and frame lemmas. -/

theorem findUser_id {db : DB} {i : String} {u : User}
    (h : findUser db i = some u) : u.id = i := by
  simpa using List.find?_some h

theorem findToken_id {db : DB} {t : String} {tk : Token}
    (h : findToken db t = some tk) : tk.token = t := by
  simpa using List.find?_some h

theorem findRoom_id {db : DB} {i : String} {r : Room}
    (h : findRoom db i = some r) : r.id = i := by
  simpa using List.find?_some h

theorem find?_id_map_replace (l : List User) (i : String) (w u' : User)
    (hw : l.find? (fun x => x.id == i) = some w) (hid : u'.id = i) :
    (l.map (fun x => if x.id == u'.id then u' else x)).find?
        (fun x => x.id == i) = some u' := by
  induction l with
  | nil => simp at hw
  | cons a as ih =>
    by_cases ha : a.id = i
    · have h1 : (a.id == u'.id) = true := by simp [ha, hid]
      have h2 : (u'.id == i) = true := by simp [hid]
      rw [List.map_cons, if_pos h1]
      exact List.find?_cons_of_pos _ h2
    · have h1 : (a.id == u'.id) = false := by
        simp only [hid, beq_eq_false_iff_ne, ne_eq]
        exact ha
      have h2 : (a.id == i) = false := by
        simp only [beq_eq_false_iff_ne, ne_eq]
        exact ha
      simp only [List.map_cons, h1, Bool.false_eq_true, if_false]
      rw [List.find?_cons_of_neg _ (by simp [h2])]
      rw [List.find?_cons_of_neg _ (by simp [h2])] at hw
      exact ih hw

theorem findUser_replaceUser {db : DB} {i : String} {w u' : User}
    (hw : findUser db i = some w) (hid : u'.id = i) :
    findUser (replaceUser db u') i = some u' :=
  find?_id_map_replace db.users i w u' hw hid

theorem refreshUser_id (u : User) (now : Nat) (rr : String × Nat) :
    (refreshUser u now rr).id = u.id := by
  unfold refreshUser; split <;> rfl

theorem refreshUser_slots (u : User) (now : Nat) (rr : String × Nat) :
    (refreshUser u now rr).artist_room_1 = u.artist_room_1
    ∧ (refreshUser u now rr).artist_room_2 = u.artist_room_2
    ∧ (refreshUser u now rr).genre_room_1 = u.genre_room_1
    ∧ (refreshUser u now rr).genre_room_2 = u.genre_room_2
    ∧ (refreshUser u now rr).rooms_expiry = u.rooms_expiry := by
  unfold refreshUser; split <;> exact ⟨rfl, rfl, rfl, rfl, rfl⟩

/-- C7: on the cache-miss path, when the provider reports fewer than 2
top artists the endpoint answers with the 204 "Not enough data" result,
creates no Room row, leaves the message log untouched, and keeps the
user's four room-assignment slots and `rooms_expiry` at their previous
values. -/
theorem c7_insufficient_data (db : DB) (auth : String) (now : Nat)
    (rr : String × Nat) (top : TopArtistsData) (tk : Token) (u : User)
    (htk : findToken db auth = some tk)
    (hexp : ¬ tk.expiry < now)
    (hu : findUser db tk.user_id = some u)
    (hmiss : u.rooms_expiry = none ∨ ∃ e, u.rooms_expiry = some e ∧ e < now)
    (htot : top.total < 2) :
    (get_rooms db auth now rr top).1 = HttpResult.notEnoughData
    ∧ (get_rooms db auth now rr top).2.rooms = db.rooms
    ∧ (get_rooms db auth now rr top).2.messages = db.messages
    ∧ ∃ u1, findUser (get_rooms db auth now rr top).2 tk.user_id = some u1
        ∧ u1.artist_room_1 = u.artist_room_1
        ∧ u1.artist_room_2 = u.artist_room_2
        ∧ u1.genre_room_1 = u.genre_room_1
        ∧ u1.genre_room_2 = u.genre_room_2
        ∧ u1.rooms_expiry = u.rooms_expiry := by
  have hgr : get_rooms db auth now rr top
      = (HttpResult.notEnoughData, replaceUser db (refreshUser u now rr)) := by
    unfold get_rooms
    simp only [htk, hu, if_neg hexp]
    rcases hmiss with h | ⟨e, he, hlt⟩
    · simp only [h]; unfold getRoomsMiss; simp [htot]
    · simp only [he, if_pos hlt]; unfold getRoomsMiss; simp [htot]
  rw [hgr]
  obtain ⟨s1, s2, s3, s4, s5⟩ := refreshUser_slots u now rr
  exact ⟨rfl, rfl, rfl, refreshUser u now rr,
    findUser_replaceUser hu ((refreshUser_id u now rr).trans (findUser_id hu)),
    s1, s2, s3, s4, s5⟩

/-- Witness for C7: with a single reported artist the call returns 204
and writes no room data. -/
theorem c7_witness :
    (get_rooms dbA "t1" 10 ("na", 100) topOne).1 = HttpResult.notEnoughData
    ∧ (get_rooms dbA "t1" 10 ("na", 100) topOne).2.rooms = dbA.rooms :=
  ⟨(c7_insufficient_data dbA "t1" 10 ("na", 100) topOne tokA uA rfl
      (by decide) rfl (Or.inl rfl) (by decide)).1,
   (c7_insufficient_data dbA "t1" 10 ("na", 100) topOne tokA uA rfl
      (by decide) rfl (Or.inl rfl) (by decide)).2.1⟩

/-! The genre table keeps one entry per distinct tag. -/

theorem mem_bump_keys (l : List (String × Nat)) (g s : String) :
    s ∈ (bump l g).map Prod.fst ↔ s ∈ l.map Prod.fst ∨ s = g := by
  induction l with
  | nil => simp [bump, eq_comm]
  | cons kv rest ih =>
    obtain ⟨k, v⟩ := kv
    by_cases hk : k = g
    · subst hk
      simp [bump]
      tauto
    · simp [bump, hk, ih]
      tauto

theorem bump_keys_nodup (l : List (String × Nat)) (g : String)
    (h : (l.map Prod.fst).Nodup) : ((bump l g).map Prod.fst).Nodup := by
  induction l with
  | nil => simp [bump]
  | cons kv rest ih =>
    obtain ⟨k, v⟩ := kv
    rw [List.map_cons] at h
    obtain ⟨hk1, hk2⟩ := List.nodup_cons.mp h
    by_cases hk : k = g
    · subst hk
      simp only [bump, if_pos rfl, List.map_cons]
      exact List.nodup_cons.mpr ⟨hk1, hk2⟩
    · simp only [bump, if_neg hk, List.map_cons]
      refine List.nodup_cons.mpr ⟨fun hmem => ?_, ih hk2⟩
      rcases (mem_bump_keys rest g k).mp hmem with h' | h'
      · exact hk1 h'
      · exact hk h'

theorem foldl_bump_nodup (gs : List String) (acc : List (String × Nat))
    (h : (acc.map Prod.fst).Nodup) :
    ((gs.foldl bump acc).map Prod.fst).Nodup := by
  induction gs generalizing acc with
  | nil => exact h
  | cons g gs ih => exact ih _ (bump_keys_nodup acc g h)

theorem countGenres_keys_nodup (items : List Artist) :
    ((countGenres items).map Prod.fst).Nodup := by
  suffices h : ∀ acc : List (String × Nat), (acc.map Prod.fst).Nodup →
      ((items.foldl (fun acc a => a.genres.foldl bump acc) acc).map
        Prod.fst).Nodup from h [] (by simp)
  induction items with
  | nil => exact fun acc h => h
  | cons a as ih => exact fun acc h => ih _ (foldl_bump_nodup a.genres acc h)

/-- Under a valid token and an expired (or absent) room cache, the
endpoint runs the recomputation branch. -/
theorem get_rooms_miss_eq (db : DB) (auth : String) (now : Nat)
    (rr : String × Nat) (top : TopArtistsData) (tk : Token) (u : User)
    (htk : findToken db auth = some tk) (hexp : ¬ tk.expiry < now)
    (hu : findUser db tk.user_id = some u)
    (hmiss : u.rooms_expiry = none ∨ ∃ e, u.rooms_expiry = some e ∧ e < now) :
    get_rooms db auth now rr top = getRoomsMiss db u now rr top := by
  unfold get_rooms
  simp only [htk, hu, if_neg hexp]
  rcases hmiss with h | ⟨e, he, hlt⟩
  · simp only [h]
  · simp only [he, if_pos hlt]

/-- Under a valid token and a still-fresh room cache, the endpoint runs
the cache-hit branch. -/
theorem get_rooms_hit_eq (db : DB) (auth : String) (now : Nat)
    (rr : String × Nat) (top : TopArtistsData) (tk : Token) (u : User)
    (e : Nat)
    (htk : findToken db auth = some tk) (hexp : ¬ tk.expiry < now)
    (hu : findUser db tk.user_id = some u)
    (hre : u.rooms_expiry = some e) (hlt : ¬ e < now) :
    get_rooms db auth now rr top = getRoomsHit db u e := by
  unfold get_rooms
  simp only [htk, hu, if_neg hexp, hre, if_neg hlt]

/-- With at least 2 artists but fewer than 2 distinct genre tags, the
second access into the sorted genre list is out of bounds and the
recomputation raises IndexError, committing nothing. -/
theorem getRoomsMiss_short_genres (db : DB) (u : User) (now : Nat)
    (rr : String × Nat) (top : TopArtistsData)
    (htot : ¬ top.total < 2)
    (a0 a1 : Artist) (rest : List Artist)
    (hitems : top.items = a0 :: a1 :: rest)
    (hlen : (countGenres top.items).length < 2) :
    getRoomsMiss db u now rr top = (HttpResult.err "IndexError", db) := by
  have hlen' : (genresSorted top.items).length < 2 := by
    rw [genresSorted, (sortDesc_perm (countGenres top.items)).length_eq]
    exact hlen
  unfold getRoomsMiss
  rw [if_neg htot]
  rcases hgs : genresSorted top.items with _ | ⟨g0, gtl⟩
  · rw [hitems]
  · rcases gtl with _ | ⟨g1, gtl2⟩
    · rw [hitems]
    · rw [hgs] at hlen'
      simp at hlen'
      exfalso
      omega

/-- C8: under a valid token, an expired room cache and at least two
reported artists, fewer than 2 distinct genre tags across the artists
makes `get_rooms` raise IndexError (no 200 response and no 204 signal,
no commit), and conversely any 200 response requires at least 2 distinct
genre tags; the genre table holds one entry per distinct tag. -/
theorem c8_two_genres_necessary (db : DB) (auth : String) (now : Nat)
    (rr : String × Nat) (top : TopArtistsData) (tk : Token) (u : User)
    (htk : findToken db auth = some tk) (hexp : ¬ tk.expiry < now)
    (hu : findUser db tk.user_id = some u)
    (hmiss : u.rooms_expiry = none ∨ ∃ e, u.rooms_expiry = some e ∧ e < now)
    (htot : ¬ top.total < 2)
    (a0 a1 : Artist) (rest : List Artist)
    (hitems : top.items = a0 :: a1 :: rest) :
    ((countGenres top.items).length < 2 →
      get_rooms db auth now rr top = (HttpResult.err "IndexError", db))
    ∧ (∀ rooms e, (get_rooms db auth now rr top).1 = HttpResult.ok rooms e →
        2 ≤ (countGenres top.items).length)
    ∧ ((countGenres top.items).map Prod.fst).Nodup := by
  have heq := get_rooms_miss_eq db auth now rr top tk u htk hexp hu hmiss
  refine ⟨?_, ?_, countGenres_keys_nodup top.items⟩
  · intro hlen
    rw [heq]
    exact getRoomsMiss_short_genres db u now rr top htot a0 a1 rest hitems hlen
  · intro rooms e hok
    by_contra hlt
    push_neg at hlt
    rw [heq,
      getRoomsMiss_short_genres db u now rr top htot a0 a1 rest hitems hlt]
      at hok
    simp at hok

/-- Witness for C8: two artists sharing the single genre tag `solo`
drive the endpoint into the IndexError outcome with no commit. -/
theorem c8_witness :
    get_rooms dbA "t1" 10 ("na", 100) topSolo
      = (HttpResult.err "IndexError", dbA) :=
  (c8_two_genres_necessary dbA "t1" 10 ("na", 100) topSolo tokA uA rfl
      (by decide) rfl (Or.inl rfl) (by decide) artistC artistD [] rfl).1
    (by decide)

/-- C9: a successful post appends exactly one Message row; the broadcast
payload, and the marshaling of that row fetched back as the last entry
of the room's history, are both the
`{id, body, timestamp, room_id, user: {id, display_name,
profile_picture, spotify_link}}` dictionary carrying the stored field
values. -/
theorem c9_roundtrip (db : DB) (st room body : String) (now nextId : Nat)
    (tk : Token) (u : User) (r : Room)
    (htk : findToken db st = some tk)
    (hu : findUser db tk.user_id = some u)
    (hmem : [u.artist_room_1, u.artist_room_2, u.genre_room_1,
             u.genre_room_2].contains (some room) = true)
    (hr : findRoom db room = some r) :
    message_created db (some st) room body now nextId
      = (MsgResult.ack "Message sent" 201,
         { db with messages := db.messages ++
             [{ id := nextId, body := body, timestamp := now,
                user_id := u.id, room_id := room }] },
         some { id := nextId, body := body, timestamp := now, room_id := room,
                user := { id := u.id, display_name := u.display_name,
                          profile_picture := u.profile_picture,
                          spotify_link := u.spotify_link } })
    ∧ (history (message_created db (some st) room body now nextId).2.1
          room).getLast?
        = some { id := nextId, body := body, timestamp := now,
                 user_id := u.id, room_id := room }
    ∧ marshalIn (message_created db (some st) room body now nextId).2.1
          { id := nextId, body := body, timestamp := now,
            user_id := u.id, room_id := room }
        = some { id := nextId, body := body, timestamp := now, room_id := room,
                 user := { id := u.id, display_name := u.display_name,
                           profile_picture := u.profile_picture,
                           spotify_link := u.spotify_link } } := by
  have hmc : message_created db (some st) room body now nextId
      = (MsgResult.ack "Message sent" 201,
         { db with messages := db.messages ++
             [{ id := nextId, body := body, timestamp := now,
                user_id := u.id, room_id := room }] },
         some { id := nextId, body := body, timestamp := now, room_id := room,
                user := { id := u.id, display_name := u.display_name,
                          profile_picture := u.profile_picture,
                          spotify_link := u.spotify_link } }) := by
    unfold message_created
    simp only [htk, hu, hr, hmem, if_true]
    rfl
  refine ⟨hmc, ?_, ?_⟩
  · rw [hmc]
    unfold history
    simp only [List.filter_append]
    rw [show List.filter
        (fun m : Message => m.room_id == room)
        [{ id := nextId, body := body, timestamp := now,
           user_id := u.id, room_id := room }]
      = [{ id := nextId, body := body, timestamp := now,
           user_id := u.id, room_id := room }] by simp]
    exact List.getLast?_concat _
  · rw [hmc]
    have hid : u.id = tk.user_id := findUser_id hu
    have hfu : findUser db u.id = some u := by rw [hid]; exact hu
    simp only [marshalIn, findUser] at hfu ⊢
    rw [hfu]
    rfl

/-- Witness for C9 at a concrete database: posting to the assigned room
`a1` stores and round-trips the message dictionary. -/
theorem c9_witness :
    (history (message_created dbB (some "t1") "a1" "hello" 99 1).2.1
        "a1").getLast?
      = some { id := 1, body := "hello", timestamp := 99,
               user_id := "u1", room_id := "a1" } :=
  (c9_roundtrip dbB "t1" "a1" "hello" 99 1 tokA uB roomA1 rfl rfl
    (by decide) rfl).2.1

/-! The rooms endpoint only produces 403 at the token gate. -/

theorem getRoomsMiss_ne_forbidden (db : DB) (u : User) (now : Nat)
    (rr : String × Nat) (top : TopArtistsData) :
    (getRoomsMiss db u now rr top).1 ≠ HttpResult.forbidden := by
  unfold getRoomsMiss
  split
  · simp
  · split
    · split
      · dsimp only
        split <;> simp
      · simp
    · simp

theorem getRoomsHit_ne_forbidden (db : DB) (u : User) (e : Nat) :
    (getRoomsHit db u e).1 ≠ HttpResult.forbidden := by
  unfold getRoomsHit
  split
  · simp
  · split
    · simp
    · split
      · simp
      · split <;> simp

/-- C1 (amended): the HTTP rooms endpoint and the realtime join apply
one rule — fail Unauthorized (403 / connection refusal) exactly for a
token identifier with no Token record or with `token.expiry < now`,
and otherwise proceed for the owning user.  The message-post handler
applies no such rule: an absent token record raises an unhandled
AttributeError instead of a rejection, and a recorded token is accepted
with no expiry check — an expired token still posts successfully. -/
theorem c1_resolution (db : DB) (idStr : String) (now : Nat)
    (rr : String × Nat) (top : TopArtistsData) :
    (findToken db idStr = none →
      (get_rooms db idStr now rr top).1 = HttpResult.forbidden
      ∧ join db idStr now = JoinResult.refused "authentication failed"
      ∧ ∀ room body nextId,
          message_created db (some idStr) room body now nextId
            = (MsgResult.err "AttributeError", db, none))
    ∧ (∀ tk, findToken db idStr = some tk → tk.expiry < now →
      (get_rooms db idStr now rr top).1 = HttpResult.forbidden
      ∧ join db idStr now = JoinResult.refused "authentication failed")
    ∧ (∀ tk, findToken db idStr = some tk → ¬ tk.expiry < now →
      (get_rooms db idStr now rr top).1 ≠ HttpResult.forbidden
      ∧ ∀ reason, join db idStr now ≠ JoinResult.refused reason)
    ∧ (∀ tk u room body nextId r, findToken db idStr = some tk →
      findUser db tk.user_id = some u → tk.expiry < now →
      [u.artist_room_1, u.artist_room_2, u.genre_room_1,
       u.genre_room_2].contains (some room) = true →
      findRoom db room = some r →
      (message_created db (some idStr) room body now nextId).1
        = MsgResult.ack "Message sent" 201) := by
  refine ⟨?_, ?_, ?_, ?_⟩
  · intro hn
    refine ⟨?_, ?_, ?_⟩
    · unfold get_rooms; simp [hn]
    · unfold join; simp [hn]
    · intro room body nextId
      unfold message_created; simp [hn]
  · intro tk htk hlt
    constructor
    · unfold get_rooms; simp [htk, if_pos hlt]
    · unfold join; simp [htk, if_pos hlt]
  · intro tk htk hnlt
    constructor
    · rcases hfu : findUser db tk.user_id with _ | u
      · unfold get_rooms
        simp [htk, if_neg hnlt, hfu]
      · rcases hre : u.rooms_expiry with _ | e
        · rw [get_rooms_miss_eq db idStr now rr top tk u htk hnlt hfu
            (Or.inl hre)]
          exact getRoomsMiss_ne_forbidden db u now rr top
        · by_cases hlt2 : e < now
          · rw [get_rooms_miss_eq db idStr now rr top tk u htk hnlt hfu
              (Or.inr ⟨e, hre, hlt2⟩)]
            exact getRoomsMiss_ne_forbidden db u now rr top
          · rw [get_rooms_hit_eq db idStr now rr top tk u e htk hnlt hfu hre
              hlt2]
            exact getRoomsHit_ne_forbidden db u e
    · intro reason
      unfold join
      simp only [htk, if_neg hnlt]
      rcases hfu : findUser db tk.user_id with _ | u
      · simp
      · simp
  · intro tk u room body nextId r htk hu hlt hmem hr
    unfold message_created
    simp only [htk, hu, hr, hmem, if_true]

/-- C1 counterexample: at a concrete state whose token is expired
(`expiry = 500000 < now = 600000`, so `now >= expiry`), the
message-post handler does not reject — it acknowledges 201 and appends
the message — and at `now = expiry` exactly (where the claim demands
Unauthorized) the HTTP endpoint also proceeds, answering 200 with the
room list; both contradict the claimed uniform `now >= token.expiry`
rejection rule. -/
theorem c1_counterexample :
    tokA.expiry ≤ 600000
    ∧ (message_created dbB (some "t1") "a1" "hi" 600000 1).1
        = MsgResult.ack "Message sent" 201
    ∧ (message_created dbB (some "t1") "a1" "hi" 600000 1).2.1.messages
        = [{ id := 1, body := "hi", timestamp := 600000,
             user_id := "u1", room_id := "a1" }]
    ∧ tokA.expiry = 500000
    ∧ resultIds (get_rooms dbB "t1" 500000 ("na", 100) topAB).1
        = some ["a1", "a2", "rock", "pop"] :=
  ⟨by decide, rfl, rfl, rfl, rfl⟩

/-- Witness for C1: at the expired concrete token the HTTP endpoint and
join both reject, while the message handler posts successfully. -/
theorem c1_resolution_witness :
    (get_rooms dbB "t1" 600000 ("na", 100) topAB).1 = HttpResult.forbidden
    ∧ join dbB "t1" 600000 = JoinResult.refused "authentication failed"
    ∧ (message_created dbB (some "t1") "a1" "hi2" 600000 1).1
        = MsgResult.ack "Message sent" 201 :=
  ⟨((c1_resolution dbB "t1" 600000 ("na", 100) topAB).2.1 tokA rfl
      (by decide)).1,
   ((c1_resolution dbB "t1" 600000 ("na", 100) topAB).2.1 tokA rfl
      (by decide)).2,
   (c1_resolution dbB "t1" 600000 ("na", 100) topAB).2.2.2 tokA uB "a1" "hi2"
      1 roomA1 rfl rfl (by decide) (by decide) rfl⟩

/-! Lemmas on the creation loop and the cache-hit branch, used for the
same-day idempotence claim. -/

theorem history_nil {db : DB} (h : db.messages = []) (rid : String) :
    history db rid = [] := by
  unfold history
  rw [h]
  rfl

theorem marshalHistory_nil {db : DB} (h : db.messages = []) (rid : String) :
    marshalHistory db rid = Except.ok [] := by
  unfold marshalHistory
  rw [history_nil h]
  rfl

theorem findRoom_append (db : DB) (nr : Room) (i : String) :
    findRoom { db with rooms := db.rooms ++ [nr] } i
      = (findRoom db i).or (List.find? (fun r => r.id == i) [nr]) := by
  unfold findRoom
  exact List.find?_append

theorem ensureRoom_frame (db : DB) (rd : RoomDict) :
    (ensureRoom db rd).users = db.users
    ∧ (ensureRoom db rd).tokens = db.tokens
    ∧ (ensureRoom db rd).messages = db.messages := by
  unfold ensureRoom
  split
  · split <;> exact ⟨rfl, rfl, rfl⟩
  · exact ⟨rfl, rfl, rfl⟩

theorem ensureRoom_found (db : DB) (rd : RoomDict)
    (hty : rd.type = "artist" ∨ rd.id = rd.name) :
    (findRoom (ensureRoom db rd) rd.id).isSome := by
  unfold ensureRoom
  rcases hfr : findRoom db rd.id with _ | r0
  · simp only [hfr, Option.isNone_none, if_true]
    by_cases hart : (rd.type == "artist") = true
    · rw [if_pos hart, findRoom_append, hfr]
      simp [List.find?]
    · rw [if_neg hart, findRoom_append, hfr]
      have hid : rd.id = rd.name := by
        rcases hty with h | h
        · exact absurd (by simp [h]) hart
        · exact h
      simp [List.find?, ← hid]
  · simp [hfr]

theorem ensureRoom_mono (db : DB) (rd : RoomDict) (i : String)
    (h : (findRoom db i).isSome) :
    findRoom (ensureRoom db rd) i = findRoom db i := by
  obtain ⟨r1, hr1⟩ := Option.isSome_iff_exists.mp h
  unfold ensureRoom
  split
  · split
    · rw [findRoom_append, hr1]
      rfl
    · rw [findRoom_append, hr1]
      rfl
  · rfl

theorem processRoom_spec (db : DB) (rd : RoomDict)
    (hmsgs : db.messages = [])
    (hty : rd.type = "artist" ∨ rd.id = rd.name) :
    ∃ db1 r, processRoom db rd = Except.ok (db1, r)
      ∧ db1.users = db.users ∧ db1.tokens = db.tokens
      ∧ db1.messages = db.messages
      ∧ (findRoom db1 rd.id).isSome
      ∧ r.id = rd.id
      ∧ (∀ i, (findRoom db i).isSome → findRoom db1 i = findRoom db i) := by
  obtain ⟨fr, hfr⟩ := Option.isSome_iff_exists.mp (ensureRoom_found db rd hty)
  obtain ⟨hus, hts, hms⟩ := ensureRoom_frame db rd
  refine ⟨ensureRoom db rd,
    { type := rd.type, name := rd.name, id := rd.id,
      images := rd.images, messages := [] }, ?_, hus, hts, hms, ?_, rfl,
    fun i hi => ensureRoom_mono db rd i hi⟩
  · unfold processRoom
    simp only [hfr, marshalHistory_nil (hms.trans hmsgs)]
  · rw [hfr]
    rfl

theorem processRooms_spec (dicts : List RoomDict) (db : DB)
    (hmsgs : db.messages = [])
    (hty : ∀ rd ∈ dicts, rd.type = "artist" ∨ rd.id = rd.name) :
    ∃ db2 rds, processRooms db dicts = Except.ok (db2, rds)
      ∧ db2.users = db.users ∧ db2.tokens = db.tokens
      ∧ db2.messages = db.messages
      ∧ rds.map RoomData.id = dicts.map RoomDict.id
      ∧ (∀ i, (findRoom db i).isSome → findRoom db2 i = findRoom db i)
      ∧ (∀ rd ∈ dicts, (findRoom db2 rd.id).isSome) := by
  induction dicts generalizing db with
  | nil =>
    exact ⟨db, [], rfl, rfl, rfl, rfl, rfl, fun i _ => rfl, by simp⟩
  | cons rd rest ih =>
    obtain ⟨db1, r, hpr, hu1, ht1, hm1, hfound, hrid, hmono1⟩ :=
      processRoom_spec db rd hmsgs (hty rd (List.mem_cons_self rd rest))
    obtain ⟨db2, rds, hprs, hu2, ht2, hm2, hids, hmono2, hfound2⟩ :=
      ih db1 (hm1.trans hmsgs)
        (fun x hx => hty x (List.mem_cons_of_mem rd hx))
    refine ⟨db2, r :: rds, ?_, hu2.trans hu1, ht2.trans ht1, hm2.trans hm1,
      ?_, ?_, ?_⟩
    · simp only [processRooms, hpr, hprs]
    · simp [hids, hrid]
    · intro i hi
      have h1 := hmono1 i hi
      have h1s : (findRoom db1 i).isSome := by rw [h1]; exact hi
      rw [hmono2 i h1s, h1]
    · intro x hx
      rcases List.mem_cons.mp hx with rfl | hx
      · rw [hmono2 x.id hfound]
        exact hfound
      · exact hfound2 x hx

theorem roomDataOfHit_ok (db : DB) (rid : String)
    (hmsgs : db.messages = [])
    (hr : (findRoom db rid).isSome) :
    ∃ rd, roomDataOfHit db (some rid) = Except.ok rd ∧ rd.id = rid := by
  obtain ⟨r, hr'⟩ := Option.isSome_iff_exists.mp hr
  have hid : r.id = rid := findRoom_id hr'
  have hb : (some rid).bind (findRoom db) = some r := hr'
  refine ⟨{ type := r.room_type, name := r.name, id := r.id,
            images := r.images, messages := [] }, ?_, hid⟩
  unfold roomDataOfHit
  simp only [hb, marshalHistory_nil hmsgs]

theorem getRoomsHit_spec (db : DB) (u : User) (e : Nat)
    (hmsgs : db.messages = [])
    (i1 i2 i3 i4 : String)
    (h1 : u.artist_room_1 = some i1) (h2 : u.artist_room_2 = some i2)
    (h3 : u.genre_room_1 = some i3) (h4 : u.genre_room_2 = some i4)
    (f1 : (findRoom db i1).isSome) (f2 : (findRoom db i2).isSome)
    (f3 : (findRoom db i3).isSome) (f4 : (findRoom db i4).isSome) :
    ∃ rds, getRoomsHit db u e = (HttpResult.ok rds e, db)
      ∧ rds.map RoomData.id = [i1, i2, i3, i4] := by
  obtain ⟨r1, hr1, hid1⟩ := roomDataOfHit_ok db i1 hmsgs f1
  obtain ⟨r2, hr2, hid2⟩ := roomDataOfHit_ok db i2 hmsgs f2
  obtain ⟨r3, hr3, hid3⟩ := roomDataOfHit_ok db i3 hmsgs f3
  obtain ⟨r4, hr4, hid4⟩ := roomDataOfHit_ok db i4 hmsgs f4
  refine ⟨[r1, r2, r3, r4], ?_, by simp [hid1, hid2, hid3, hid4]⟩
  unfold getRoomsHit
  simp only [h1, hr1, h2, hr2, h3, hr3, h4, hr4]

theorem findUser_congr {db1 db2 : DB} (h : db1.users = db2.users)
    (i : String) : findUser db1 i = findUser db2 i := by
  unfold findUser
  rw [h]

theorem findToken_congr {db1 db2 : DB} (h : db1.tokens = db2.tokens)
    (i : String) : findToken db1 i = findToken db2 i := by
  unfold findToken
  rw [h]

/-- C6: on a cache miss with usable provider data the recomputation
stores `rooms_expiry` = start of the next calendar day and answers with
that expiry; a second rooms call before that midnight — whatever
provider data it would see — takes the cache-hit branch, returns the
stored expiry again and lists the same four room identifiers. -/
theorem c6_recompute_idempotent (db : DB) (auth : String) (t t2 : Nat)
    (rr rr2 : String × Nat) (top top2 : TopArtistsData)
    (tk : Token) (u : User)
    (htk : findToken db auth = some tk)
    (hexp : ¬ tk.expiry < t) (hexp2 : ¬ tk.expiry < t2)
    (hu : findUser db tk.user_id = some u)
    (hmiss : u.rooms_expiry = none ∨ ∃ e, u.rooms_expiry = some e ∧ e < t)
    (hmsgs : db.messages = [])
    (a0 a1 : Artist) (rest : List Artist)
    (hitems : top.items = a0 :: a1 :: rest)
    (htot : ¬ top.total < 2)
    (g0 g1 : String × Nat) (grest : List (String × Nat))
    (hg : genresSorted top.items = g0 :: g1 :: grest)
    (ht2 : t2 < startOfNextDay t) :
    ∃ rds1 rds2,
      (get_rooms db auth t rr top).1 = HttpResult.ok rds1 (startOfNextDay t)
      ∧ (get_rooms (get_rooms db auth t rr top).2 auth t2 rr2 top2).1
          = HttpResult.ok rds2 (startOfNextDay t)
      ∧ rds1.map RoomData.id = [a0.id, a1.id, g0.1, g1.1]
      ∧ rds2.map RoomData.id = [a0.id, a1.id, g0.1, g1.1]
      ∧ ∃ u1, findUser (get_rooms db auth t rr top).2 tk.user_id = some u1
          ∧ u1.rooms_expiry = some (startOfNextDay t) := by
  obtain ⟨db2, rds, hprs, hus, hts, hms, hids, hmono, hfound⟩ :=
    processRooms_spec (roomDicts a0 a1 g0 g1)
      (replaceUser db (assignedUser (refreshUser u t rr) a0 a1 g0 g1 t))
      hmsgs
      (by
        intro rd hrd
        simp only [roomDicts, List.mem_cons, List.not_mem_nil,
          or_false] at hrd
        rcases hrd with rfl | rfl | rfl | rfl
        · exact Or.inl rfl
        · exact Or.inl rfl
        · exact Or.inr rfl
        · exact Or.inr rfl)
  have hmiss_eval : getRoomsMiss db u t rr top
      = (HttpResult.ok rds (startOfNextDay t), db2) := by
    rw [hitems] at hg
    unfold getRoomsMiss
    rw [if_neg htot, hitems]
    simp only [hg, hprs]
  have hfirst : get_rooms db auth t rr top
      = (HttpResult.ok rds (startOfNextDay t), db2) :=
    (get_rooms_miss_eq db auth t rr top tk u htk hexp hu hmiss).trans
      hmiss_eval
  have hu2id : (assignedUser (refreshUser u t rr) a0 a1 g0 g1 t).id
      = tk.user_id := by
    show (refreshUser u t rr).id = tk.user_id
    rw [refreshUser_id]
    exact findUser_id hu
  have hu2find : findUser db2 tk.user_id
      = some (assignedUser (refreshUser u t rr) a0 a1 g0 g1 t) := by
    rw [findUser_congr hus tk.user_id]
    exact findUser_replaceUser hu hu2id
  have htk2 : findToken db2 auth = some tk := by
    rw [findToken_congr hts auth]
    exact htk
  have hmsgs2 : db2.messages = [] := hms.trans hmsgs
  have hnlt2 : ¬ startOfNextDay t < t2 := by omega
  have hhit_eq : get_rooms db2 auth t2 rr2 top2
      = getRoomsHit db2 (assignedUser (refreshUser u t rr) a0 a1 g0 g1 t)
          (startOfNextDay t) :=
    get_rooms_hit_eq db2 auth t2 rr2 top2 tk _ (startOfNextDay t) htk2 hexp2
      hu2find rfl hnlt2
  have hf1 : (findRoom db2 a0.id).isSome :=
    hfound { type := "artist", name := a0.name, id := a0.id,
             images := some a0.images } (by simp [roomDicts])
  have hf2 : (findRoom db2 a1.id).isSome :=
    hfound { type := "artist", name := a1.name, id := a1.id,
             images := some a1.images } (by simp [roomDicts])
  have hf3 : (findRoom db2 g0.1).isSome :=
    hfound { type := "genre", name := g0.1, id := g0.1, images := none }
      (by simp [roomDicts])
  have hf4 : (findRoom db2 g1.1).isSome :=
    hfound { type := "genre", name := g1.1, id := g1.1, images := none }
      (by simp [roomDicts])
  obtain ⟨rds2, hhit, hids2⟩ :=
    getRoomsHit_spec db2 (assignedUser (refreshUser u t rr) a0 a1 g0 g1 t)
      (startOfNextDay t) hmsgs2 a0.id a1.id g0.1 g1.1
      rfl rfl rfl rfl hf1 hf2 hf3 hf4
  refine ⟨rds, rds2, ?_, ?_, ?_, hids2, ?_⟩
  · rw [hfirst]
  · rw [hfirst]
    show (get_rooms db2 auth t2 rr2 top2).1 = _
    rw [hhit_eq, hhit]
  · rw [hids]
    rfl
  · exact ⟨_, by rw [hfirst]; exact hu2find, rfl⟩

/-- Witness for C6: at the scenario database the first call stores and
returns expiry 86400 (the midnight after t = 10), and a second call at
t = 20 repeats the same four identifiers and the same expiry. -/
theorem c6_witness :
    ∃ rds1 rds2,
      (get_rooms dbA "t1" 10 ("na", 100) topAB).1
          = HttpResult.ok rds1 (startOfNextDay 10)
      ∧ (get_rooms (get_rooms dbA "t1" 10 ("na", 100) topAB).2
            "t1" 20 ("na", 100) topAB).1
          = HttpResult.ok rds2 (startOfNextDay 10)
      ∧ rds1.map RoomData.id
          = [artistA.id, artistB.id, ("rock", 3).1, ("pop", 1).1]
      ∧ rds2.map RoomData.id
          = [artistA.id, artistB.id, ("rock", 3).1, ("pop", 1).1]
      ∧ ∃ u1, findUser (get_rooms dbA "t1" 10 ("na", 100) topAB).2
            tokA.user_id = some u1
          ∧ u1.rooms_expiry = some (startOfNextDay 10) :=
  c6_recompute_idempotent dbA "t1" 10 20 ("na", 100) ("na", 100) topAB topAB
    tokA uA rfl (by decide) (by decide) rfl (Or.inl rfl) rfl artistA artistB
    [] rfl (by decide) ("rock", 3) ("pop", 1) [] rfl (by decide)

end Muser
